import Mathlib

/-
Verification of the nsw_tas_fuel_station Home Assistant integration.

The Python sources are shallowly embedded: pure fragments become Lean
functions, Python dicts are modelled either as association lists (when key
iteration matters) or as lookup functions (when only lookup matters), float
prices and timestamps become rationals or integers, and network calls become
explicit function parameters or response values.
-/

namespace NSWFuel

/-- Station record from the nsw_fuel client library: a fuel retail location
identified by a numeric code and an Australian state. -/
structure Station where
  code : ℤ
  name : String
  brand : String
  au_state : String
deriving DecidableEq, Repr

/-- Price record from the nsw_fuel client library.  The price field is
optional because the API can omit it; code that consumes a definite price
filters on it first. -/
structure Price where
  fuel_type : String
  price : Option ℚ
deriving DecidableEq, Repr

/-- StationPrice record from the nsw_fuel client library, as returned by
get_fuel_prices_within_radius.  The nearby endpoint always carries a definite
price (the coordinator reads sp.price.price unconditionally and sorts on it),
so the price component is modelled as a definite rational. -/
structure NearbyPrice where
  price : ℚ
deriving DecidableEq, Repr

/-- StationPrice pairs a station with its price record. -/
structure StationPrice where
  station : Station
  price : NearbyPrice
deriving DecidableEq, Repr

/-
Constants from custom_components/nsw_fuel_station/const.py.
-/

/-- DEFAULT_FUEL_TYPE from const.py. -/
def DEFAULT_FUEL_TYPE : String := "U91"

/-- E10_AVAILABLE_STATES from const.py: a one element tuple. -/
def E10_AVAILABLE_STATES : List String := ["NSW"]

/-- E10_TRUNCATE_LIST from const.py. -/
def E10_TRUNCATE_LIST : ℕ := 5

/-- E10_CODE from const.py. -/
def E10_CODE : String := "E10"

/-- LAT_CAMERON_CORNER_BOUND from const.py. -/
def LAT_CAMERON_CORNER_BOUND : ℚ := -28.99608

/-- LON_CAMERON_CORNER_BOUND from const.py. -/
def LON_CAMERON_CORNER_BOUND : ℚ := 141.00180

/-- LAT_SE_BOUND from const.py. -/
def LAT_SE_BOUND : ℚ := -50

/-- LON_SE_BOUND from const.py. -/
def LON_SE_BOUND : ℚ := 154

/-- REF_DATA_REFRESH_DAYS from config/custom_components/nsw_fuel_ui/const.py. -/
def REF_DATA_REFRESH_DAYS : ℤ := 30

end NSWFuel

namespace MultiStation

/-
Embedding of src/coordinator.py (the multi station coordinator) and
src/sensor.py.  The prices dictionary there is keyed by pairs
(station_code, fuel_type) with float values.
-/

/-- The coordinator attribute prices maps (station_code, fuel_type) keys to
float prices.  For get_station_fuel_types only the key iteration matters, so
the dict is modelled by its list of (distinct) keys. -/
def PriceKey : Type := ℤ × String
deriving DecidableEq

/-- Embedding of NSWFuelCoordinator.get_station_fuel_types from
src/coordinator.py: the sorted list of fuel types taken from those keys of
the prices dictionary whose station code matches the argument. -/
def get_station_fuel_types (price_keys : List (ℤ × String)) (station_code : ℤ) :
    List String :=
  ((price_keys.filter (fun kv => decide (kv.1 = station_code))).map
    (fun kv => kv.2)).mergeSort (fun a b => decide (a ≤ b))

/-- StationPriceData from src/data.py: stations keyed by station code and
prices keyed by (station_code, fuel_type).  Dicts are modelled by their
lookup functions, which is all the sensor reads. -/
structure StationPriceData where
  stations : ℤ → Option NSWFuel.Station
  prices : ℤ × String → Option ℚ

/-- Embedding of FuelPriceSensor.native_value from src/sensor.py, as a state
reader: it returns the looked up price together with the (unchanged)
coordinator data, since the Python property performs no assignment. -/
def native_value_call (data : Option StationPriceData) (station_code : ℤ)
    (fuel_type : String) : Option ℚ × Option StationPriceData :=
  (match data with
   | some d => d.prices (station_code, fuel_type)
   | none => none,
   data)

end MultiStation

namespace Cheapest

open NSWFuel

/-
Embedding of custom_components/nsw_fuel_station/coordinator.py
(NSWFuelCoordinator) and custom_components/nsw_tas_fuel_station/sensor.py.
-/

/-- StationKey from custom_components/nsw_fuel_station/data.py: the pair
(station_code, au_state), since station codes are not unique across states. -/
def StationKey : Type := ℤ × String
deriving DecidableEq

/-- Station entry stored under a nickname in the config entry data: the
fields read by the coordinator constructor and sensor setup. -/
structure StationEntry where
  station_code : ℤ
  au_state : String
  station_name : String
  fuel_types : List String
deriving DecidableEq, Repr

/-- Nickname configuration block: a location plus favorite stations.  A
missing stations key reads as the empty list via dict get with default. -/
structure NicknameData where
  location : Option (ℚ × ℚ)
  stations : List StationEntry

/-- Embedding of the station key construction in NSWFuelCoordinator.__init__:
a Python set built by iterating every station of every nickname and adding
the (station_code, au_state) pair. -/
def build_station_keys (nicknames : List (String × NicknameData)) :
    Finset (ℤ × String) :=
  nicknames.foldl
    (fun acc nd =>
      nd.2.stations.foldl
        (fun acc2 st => insert (st.station_code, st.au_state) acc2) acc)
    ∅

/-- Filter used by the dict comprehension in _update_favorite_stations:
keep a price when its fuel_type string is truthy (non empty) and its price is
not None. -/
def price_ok (p : Price) : Bool :=
  decide (p.fuel_type ≠ "") && p.price.isSome

/-- Python dict modelled as its lookup function; insertion overwrites. -/
def dict_insert (d : String → Option Price) (k : String) (v : Price) :
    String → Option Price :=
  fun q => if q = k then some v else d q

/-- Embedding of the dict comprehension in _update_favorite_stations, in
iteration order: for p in prices, if p.fuel_type and p.price is not None,
bind p.fuel_type to p (a later record overwrites an earlier one that shares
its fuel type). -/
def build_price_dict (prices : List Price) : String → Option Price :=
  prices.foldl
    (fun d p => if price_ok p then dict_insert d p.fuel_type p else d)
    (fun _ => none)

/-- Embedding of _update_favorite_stations: iterate over the deduplicated
station key set, fetch the price list of each key (the fetch is the API call
get_fuel_prices_for_station, a parameter here) and build the per station
fuel type dictionary.  Keys outside the configured set are absent from the
resulting dict, modelled as a none lookup. -/
def update_favorite_stations (keys : Finset (ℤ × String))
    (fetch : ℤ × String → List Price) :
    ℤ × String → Option (String → Option Price) :=
  fun k => if k ∈ keys then some (build_price_dict (fetch k)) else none

/-- Row of the cheapest list: the dict literal produced by _convert inside
_update_cheapest_stations. -/
structure CheapRecord where
  price : ℚ
  station_code : ℤ
  station_name : String
  au_state : String
  fuel_type : String
deriving DecidableEq, Repr

/-- Embedding of the local function _convert in _update_cheapest_stations. -/
def _convert (sp : StationPrice) (fuel_type : String) : CheapRecord :=
  { price := sp.price.price
    station_code := sp.station.code
    station_name := sp.station.name
    au_state := sp.station.au_state
    fuel_type := fuel_type }

/-- Candidate list built in _update_cheapest_stations for one nickname: all
U91 nearby records, and, when the state of the first nearby station is in
E10_AVAILABLE_STATES, additionally the first E10_TRUNCATE_LIST E10 records.
Empty U91 input never reaches this point in the source (guarded by the
continue); the empty case is mapped to the empty list. -/
def combined_candidates (default_nearby e10_nearby : List StationPrice) :
    List CheapRecord :=
  match default_nearby with
  | [] => []
  | sp0 :: _ =>
      default_nearby.map (fun sp => _convert sp DEFAULT_FUEL_TYPE) ++
        (if sp0.station.au_state ∈ E10_AVAILABLE_STATES then
          (e10_nearby.take E10_TRUNCATE_LIST).map (fun sp => _convert sp E10_CODE)
        else [])

/-- Comparison used by combined.sort with key lambda x: x price. -/
def le_price (a b : CheapRecord) : Bool := decide (a.price ≤ b.price)

/-- The candidate list after combined.sort.  Python list.sort is a stable
ascending sort by the key, modelled by mergeSort on the price order. -/
def sorted_combined (default_nearby e10_nearby : List StationPrice) :
    List CheapRecord :=
  (combined_candidates default_nearby e10_nearby).mergeSort le_price

/-- Embedding of the body of the per nickname loop in
_update_cheapest_stations: on an empty U91 answer the nickname is skipped
(continue), otherwise the sorted candidate list truncated to its first two
records is stored. -/
def update_cheapest_one (default_nearby e10_nearby : List StationPrice) :
    Option (List CheapRecord) :=
  match default_nearby with
  | [] => none
  | _ :: _ => some ((sorted_combined default_nearby e10_nearby).take 2)

/-- Embedding of the whole _update_cheapest_stations loop: the fetch
parameter stands for get_fuel_prices_within_radius at a given location and
fuel type; the result maps each nickname with a non empty U91 answer to its
stored list. -/
def update_cheapest_stations (locations : List (String × ℚ × ℚ))
    (fetch : ℚ → ℚ → String → List StationPrice) :
    List (String × List CheapRecord) :=
  locations.filterMap
    (fun nl =>
      (update_cheapest_one (fetch nl.2.1 nl.2.2 DEFAULT_FUEL_TYPE)
          (fetch nl.2.1 nl.2.2 E10_CODE)).map
        (fun l => (nl.1, l)))

/-- Coordinator data payload for the nsw_tas_fuel_station sensors: the
favorites and cheapest dicts, modelled by their lookup functions. -/
structure CoordinatorData where
  favorites : ℤ × String → Option (String → Option Price)
  cheapest : String → Option (List CheapRecord)

/-- The local pd value shared by CheapestFuelPriceSensor.native_value and
extra_state_attributes: coordinator data or the empty dict, then the
cheapest list of the nickname with default empty list. -/
def cheapest_list (data : Option CoordinatorData) (nickname : String) :
    List CheapRecord :=
  match data with
  | none => []
  | some cd => (cd.cheapest nickname).getD []

/-- Embedding of CheapestFuelPriceSensor.native_value from
custom_components/nsw_tas_fuel_station/sensor.py: None unless pd is longer
than the index rank - 1, else the price at that index. -/
def cheapest_native_value (data : Option CoordinatorData) (nickname : String)
    (rank : ℕ) : Option ℚ :=
  if h : (cheapest_list data nickname).length ≤ rank - 1 then none
  else some (((cheapest_list data nickname).get ⟨rank - 1, by omega⟩).price)

/-- Embedding of CheapestFuelPriceSensor.extra_state_attributes from the same
file: the same guard, then the attribute tuple (station_code, station_name,
rank, fuel_type, price). -/
def cheapest_extra_attrs (data : Option CoordinatorData) (nickname : String)
    (rank : ℕ) : Option (ℤ × String × ℕ × String × ℚ) :=
  if h : (cheapest_list data nickname).length ≤ rank - 1 then none
  else
    let sp := (cheapest_list data nickname).get ⟨rank - 1, by omega⟩
    some (sp.station_code, sp.station_name, rank, sp.fuel_type, sp.price)

end Cheapest

namespace Api

/-
Embedding of config/custom_components/nsw_fuel_ui/api.py
(NSWFuelApiClient._async_get_token).
-/

/-- Client token cache: the _token and _token_expiry attributes.  Times are
rationals standing for the float seconds of time.time(). -/
structure ApiState where
  token : Option String
  token_expiry : ℚ
deriving DecidableEq, Repr

/-- Outcome of the token HTTP request, when one is made: a parsed token
response, an HTTP error status raised by raise_for_status as a
ClientResponseError, or an OSError level network failure. -/
inductive TokenResponse where
  | success (access_token : String) (expires_in : ℚ)
  | httpError (status : ℕ)
  | networkError
deriving DecidableEq, Repr

/-- Errors raised by _async_get_token: NSWFuelApiClientAuthError or the
general NSWFuelApiClientError. -/
inductive TokenError where
  | authError
  | clientError
deriving DecidableEq, Repr

/-- Python truthiness of the optional token string: None and the empty
string are falsy. -/
def token_truthy : Option String → Bool
  | none => false
  | some s => decide (s ≠ "")

/-- Embedding of _async_get_token.  The refresh branch runs when there is no
truthy cached token or now is past token_expiry - 60; the response of the
request it then makes is the resp parameter.  The result carries the
returned token, the new client state and whether a network request was made. -/
def _async_get_token (st : ApiState) (now : ℚ) (resp : TokenResponse) :
    Except TokenError (String × ApiState × Bool) :=
  if !token_truthy st.token || decide (now > st.token_expiry - 60) then
    match resp with
    | .success tok exp => .ok (tok, ⟨some tok, now + exp⟩, true)
    | .httpError s =>
        if s = 401 then .error .authError else .error .clientError
    | .networkError => .error .clientError
  else
    .ok (st.token.getD "", st, false)

end Api

namespace RefCoordinator

/-
Embedding of config/custom_components/nsw_fuel_ui/coordinator.py
(NSWFuelCoordinator._needs_ref_update and _async_update_data).
-/

/-- Seconds in a day, the unit of the days attribute of a timedelta. -/
def SECONDS_PER_DAY : ℤ := 86400

/-- The days attribute of a Python timedelta of the given total seconds:
floor division by 86400. -/
def timedelta_days (seconds : ℤ) : ℤ := Int.fdiv seconds SECONDS_PER_DAY

/-- Coordinator reference cache: _last_ref_update (POSIX seconds) and
_reference_data.  The payload type is abstract. -/
structure RefState (α : Type) where
  last_ref_update : ℤ
  reference_data : Option α
deriving DecidableEq, Repr

/-- Embedding of _needs_ref_update: (now - last_ref_update).days at least
REF_DATA_REFRESH_DAYS, or no cached reference data. -/
def _needs_ref_update (st : RefState α) (now : ℤ) : Bool :=
  decide
      (NSWFuel.REF_DATA_REFRESH_DAYS ≤ timedelta_days (now - st.last_ref_update))
    || st.reference_data.isNone

/-- Embedding of _async_update_data on its success path: refresh the
reference cache exactly when _needs_ref_update holds, then fetch prices, and
return the payload dict with reference and prices entries, the new state,
and whether the reference fetch ran.  The fetch results are parameters. -/
def _async_update_data (st : RefState α) (now : ℤ) (fetch_ref : α)
    (fetch_prices : β) : (Option α × β) × RefState α × Bool :=
  if _needs_ref_update st now then
    ((some fetch_ref, fetch_prices), ⟨now, some fetch_ref⟩, true)
  else
    ((st.reference_data, fetch_prices), st, false)

end RefCoordinator

namespace ConfigFlow

open NSWFuel

/-
Embedding of async_step_user from src/config_flow.py: the latitude and
longitude validation branches before the first API call.
-/

/-- Result of the user step, up to the point where the flow either
redisplays the form or proceeds to validate credentials by calling the fuel
price API.  The proceed constructor marks the first API call, after which
the flow can advance to station selection. -/
inductive UserStepResult where
  | show_form (step_id : String) (error_base : Option String)
  | proceed_to_api (lat lon : ℚ)
deriving DecidableEq, Repr

/-- Coordinates lie inside the accepted NSW/TAS bounding box. -/
def in_bounding_box (lat lon : ℚ) : Bool :=
  decide (LAT_SE_BOUND ≤ lat ∧ lat ≤ LAT_CAMERON_CORNER_BOUND) &&
    decide (LON_CAMERON_CORNER_BOUND ≤ lon ∧ lon ≤ LON_SE_BOUND)

/-- Embedding of async_step_user.  The input models the submitted form:
none is the initial display; otherwise the two components are the results of
cv.latitude and cv.longitude on the submitted values, none standing for a
vol.Invalid raise.  The bounding box check mirrors the source condition. -/
def async_step_user (user_input : Option (Option ℚ × Option ℚ)) :
    UserStepResult :=
  match user_input with
  | none => .show_form "user" none
  | some (lat0, lon0) =>
      match lat0, lon0 with
      | some lat, some lon =>
          if ¬(LAT_SE_BOUND ≤ lat ∧ lat ≤ LAT_CAMERON_CORNER_BOUND) ∨
              ¬(LON_CAMERON_CORNER_BOUND ≤ lon ∧ lon ≤ LON_SE_BOUND) then
            .show_form "user" (some "invalid_coordinates")
          else
            .proceed_to_api lat lon
      | _, _ => .show_form "user" (some "invalid_coordinates")

end ConfigFlow

/-
Concrete values used by witness and counterexample theorems below.
-/

/-- Concrete coordinator data used to witness C7. -/
def c7_data : MultiStation.StationPriceData :=
  { stations := fun _ => none
    prices := fun k => if k = (1, "U91") then some 191 else none }

/-- Concrete cheapest record used in witnesses. -/
def w_record : Cheapest.CheapRecord :=
  { price := 180
    station_code := 7
    station_name := "Stn"
    au_state := "NSW"
    fuel_type := "U91" }

/-- Concrete coordinator data used to witness C9: one nickname with a one
element cheapest list. -/
def c9_data : Cheapest.CoordinatorData :=
  { favorites := fun _ => none
    cheapest := fun n => if n = "Home" then some [w_record] else none }

/-- First of two fetched price records sharing a fuel type, for C4. -/
def c4_p1 : NSWFuel.Price := { fuel_type := "U91", price := some 1 }

/-- Second of two fetched price records sharing a fuel type, for C4. -/
def c4_p2 : NSWFuel.Price := { fuel_type := "U91", price := some 2 }

/-- Concrete nearby station price used to witness C1 and C8: a TAS station. -/
def w_sp : NSWFuel.StationPrice :=
  { station := { code := 7, name := "Stn", brand := "B", au_state := "TAS" }
    price := { price := 180 } }

/-- Fetch function used by the C1 witness: one U91 station nearby, nothing
for any other fuel type. -/
def c1_fetch (_lat _lon : ℚ) (fuel_type : String) :
    List NSWFuel.StationPrice :=
  if fuel_type = NSWFuel.DEFAULT_FUEL_TYPE then [w_sp] else []

/-- Concrete nickname configuration used to witness C3. -/
def c3_nicknames : List (String × Cheapest.NicknameData) :=
  [("Home",
    { location := some (-42, 147)
      stations := [{ station_code := 1, au_state := "TAS",
                     station_name := "A", fuel_types := ["U91"] },
                   { station_code := 1, au_state := "TAS",
                     station_name := "A", fuel_types := ["DL"] }] }),
   ("Work",
    { location := some (-42, 147)
      stations := [{ station_code := 1, au_state := "TAS",
                     station_name := "A", fuel_types := ["U91"] }] })]

section Theorems

open NSWFuel

/-- C7: FuelPriceSensor.native_value equals the coordinator price stored for
the (station_code, fuel_type) pair when coordinator data exists and contains
that key, is None when there is no data or the key is absent, and reading it
returns the coordinator data unchanged. -/
theorem c7_native_value_readonly (data : Option MultiStation.StationPriceData)
    (code : ℤ) (ft : String) :
    (∀ d p, data = some d → d.prices (code, ft) = some p →
      (MultiStation.native_value_call data code ft).1 = some p) ∧
    ((data = none ∨ ∃ d, data = some d ∧ d.prices (code, ft) = none) →
      (MultiStation.native_value_call data code ft).1 = none) ∧
    (MultiStation.native_value_call data code ft).2 = data := by
  refine ⟨?_, ?_, rfl⟩
  · intro d p hd hp
    subst hd
    simpa [MultiStation.native_value_call] using hp
  · rintro (hnone | ⟨d, hd, hp⟩)
    · subst hnone
      rfl
    · subst hd
      simpa [MultiStation.native_value_call] using hp

/-- Witness for C7 at concrete data holding one price. -/
theorem c7_witness :
    (some c7_data = some c7_data ∧ c7_data.prices (1, "U91") = some 191) ∧
    (MultiStation.native_value_call (some c7_data) 1 "U91").1 = some 191 ∧
    (MultiStation.native_value_call (some c7_data) 1 "U91").2 = some c7_data := by
  have h := c7_native_value_readonly (some c7_data) 1 "U91"
  have hp : c7_data.prices (1, "U91") = some 191 := by
    simp [c7_data]
  exact ⟨⟨rfl, hp⟩, h.1 c7_data 191 rfl hp, h.2.2⟩

/-- C9: the rank r cheapest sensor yields None for native_value and
extra_state_attributes whenever there is no coordinator data or the cheapest
list of its nickname has fewer than r entries, and when the list is long
enough the guarded index r - 1 is in bounds and the sensor reads that
element. -/
theorem c9_cheapest_rank_guard (data : Option Cheapest.CoordinatorData)
    (nickname : String) (rank : ℕ) (hr : 1 ≤ rank) :
    ((data = none ∨
        ∀ cd, data = some cd → ((cd.cheapest nickname).getD []).length < rank) →
      Cheapest.cheapest_native_value data nickname rank = none ∧
      Cheapest.cheapest_extra_attrs data nickname rank = none) ∧
    (∀ cd l, data = some cd → cd.cheapest nickname = some l → rank ≤ l.length →
      ∃ hlt : rank - 1 < l.length,
        Cheapest.cheapest_native_value data nickname rank =
          some ((l.get ⟨rank - 1, hlt⟩).price) ∧
        Cheapest.cheapest_extra_attrs data nickname rank =
          some ((l.get ⟨rank - 1, hlt⟩).station_code,
            (l.get ⟨rank - 1, hlt⟩).station_name, rank,
            (l.get ⟨rank - 1, hlt⟩).fuel_type,
            (l.get ⟨rank - 1, hlt⟩).price)) := by
  constructor
  · intro hshort
    have hlen : (Cheapest.cheapest_list data nickname).length ≤ rank - 1 := by
      rcases hshort with hnone | hall
      · subst hnone
        simp [Cheapest.cheapest_list]
      · cases data with
        | none => simp [Cheapest.cheapest_list]
        | some cd =>
            have h1 := hall cd rfl
            have h2 : Cheapest.cheapest_list (some cd) nickname =
                (cd.cheapest nickname).getD [] := rfl
            rw [h2]
            omega
    constructor
    · unfold Cheapest.cheapest_native_value
      rw [dif_pos hlen]
    · unfold Cheapest.cheapest_extra_attrs
      rw [dif_pos hlen]
  · intro cd l hd hl hlen
    subst hd
    have hpd : Cheapest.cheapest_list (some cd) nickname = l := by
      simp [Cheapest.cheapest_list, hl]
    subst hpd
    refine ⟨by omega, ?_, ?_⟩
    · unfold Cheapest.cheapest_native_value
      rw [dif_neg (by omega)]
    · unfold Cheapest.cheapest_extra_attrs
      rw [dif_neg (by omega)]

/-- Witness for C9: rank 2 on a one element list yields None, rank 1 reads
the single record. -/
theorem c9_witness :
    (1 ≤ 2 ∧
      Cheapest.cheapest_native_value (some c9_data) "Home" 2 = none ∧
      Cheapest.cheapest_extra_attrs (some c9_data) "Home" 2 = none) ∧
    (1 ≤ 1 ∧
      Cheapest.cheapest_native_value (some c9_data) "Home" 1 = some 180) := by
  constructor
  · refine ⟨by omega, ?_⟩
    refine (c9_cheapest_rank_guard (some c9_data) "Home" 2 (by omega)).1
      (Or.inr ?_)
    intro cd hcd
    cases hcd
    simp [c9_data]
  · refine ⟨le_refl 1, ?_⟩
    have h := (c9_cheapest_rank_guard (some c9_data) "Home" 1 (le_refl 1)).2
      c9_data [w_record] rfl (by simp [c9_data]) (by simp)
    rcases h with ⟨hlt, hval, _⟩
    exact hval

/-- C10: get_station_fuel_types returns exactly the fuel types paired with
the given station code among the price dictionary keys, in sorted order (it
is a permutation of the filtered projection), and is empty when no key
carries that station code. -/
theorem c10_station_fuel_types (price_keys : List (ℤ × String)) (code : ℤ) :
    (∀ ft, ft ∈ MultiStation.get_station_fuel_types price_keys code ↔
      (code, ft) ∈ price_keys) ∧
    (MultiStation.get_station_fuel_types price_keys code).Pairwise
      (fun a b => a ≤ b) ∧
    (MultiStation.get_station_fuel_types price_keys code).Perm
      ((price_keys.filter (fun kv => decide (kv.1 = code))).map
        (fun kv => kv.2)) ∧
    ((∀ ft, (code, ft) ∉ price_keys) →
      MultiStation.get_station_fuel_types price_keys code = []) := by
  refine ⟨?_, ?_, ?_, ?_⟩
  · intro ft
    unfold MultiStation.get_station_fuel_types
    rw [List.mem_mergeSort, List.mem_map]
    constructor
    · rintro ⟨kv, hkv, hft⟩
      rw [List.mem_filter] at hkv
      have h1 : kv.1 = code := by simpa using hkv.2
      have : kv = (code, ft) := by
        cases kv
        simp_all
      rw [this] at hkv
      exact hkv.1
    · intro h
      exact ⟨(code, ft), List.mem_filter.mpr ⟨h, by simp⟩, rfl⟩
  · unfold MultiStation.get_station_fuel_types
    have h := @List.sorted_mergeSort String (fun a b => decide (a ≤ b))
      (fun a b c hab hbc => by
        simp only [decide_eq_true_eq] at hab hbc ⊢
        exact le_trans hab hbc)
      (fun a b => by
        simp only [Bool.or_eq_true, decide_eq_true_eq]
        exact le_total a b)
      ((price_keys.filter (fun kv => decide (kv.1 = code))).map (fun kv => kv.2))
    exact h.imp (fun hab => by simpa using hab)
  · exact List.mergeSort_perm _ _
  · intro h
    unfold MultiStation.get_station_fuel_types
    have hfil : price_keys.filter (fun kv => decide (kv.1 = code)) = [] := by
      rw [List.filter_eq_nil_iff]
      intro kv hkv
      simp only [decide_eq_true_eq]
      intro hc
      have : kv = (code, kv.2) := by
        cases kv
        simp_all
      exact h kv.2 (this ▸ hkv)
    rw [hfil]
    simp

/-- Witness for C10 at a concrete key list: membership, order and the empty
case for an absent station code. -/
theorem c10_witness :
    ((1, "U91") ∈ [((1 : ℤ), "U91"), (1, "E10")] ∧
      "U91" ∈ MultiStation.get_station_fuel_types [(1, "U91"), (1, "E10")] 1) ∧
    MultiStation.get_station_fuel_types [((1 : ℤ), "U91"), (1, "E10")] 2 = [] := by
  constructor
  · refine ⟨by simp, ?_⟩
    exact ((c10_station_fuel_types [(1, "U91"), (1, "E10")] 1).1 "U91").mpr
      (by simp)
  · refine (c10_station_fuel_types [(1, "U91"), (1, "E10")] 2).2.2.2 ?_
    intro ft hft
    rcases List.mem_cons.mp hft with h | hft2
    · injection h with h1 h2
      exact absurd h1 (by decide)
    · rcases List.mem_cons.mp hft2 with h | hft3
      · injection h with h1 h2
        exact absurd h1 (by decide)
      · simp at hft3

/-- C2: _needs_ref_update holds exactly when the reference cache is empty or
at least REF_DATA_REFRESH_DAYS whole days have passed since the last
reference update, and _async_update_data refreshes the reference cache and
records the update time exactly when that predicate holds, otherwise leaves
it unchanged, while returning freshly fetched prices in either case. -/
theorem c2_ref_refresh {α β : Type} (st : RefCoordinator.RefState α) (now : ℤ)
    (fetch_ref : α) (fetch_prices : β) :
    (RefCoordinator._needs_ref_update st now = true ↔
      (st.reference_data = none ∨
        REF_DATA_REFRESH_DAYS * RefCoordinator.SECONDS_PER_DAY ≤
          now - st.last_ref_update)) ∧
    ((RefCoordinator._async_update_data st now fetch_ref fetch_prices).2.2 =
      RefCoordinator._needs_ref_update st now) ∧
    (RefCoordinator._needs_ref_update st now = true →
      (RefCoordinator._async_update_data st now fetch_ref fetch_prices).2.1 =
        ⟨now, some fetch_ref⟩) ∧
    (RefCoordinator._needs_ref_update st now = false →
      (RefCoordinator._async_update_data st now fetch_ref fetch_prices).2.1 =
        st) ∧
    (RefCoordinator._async_update_data st now fetch_ref fetch_prices).1.2 =
      fetch_prices ∧
    (RefCoordinator._async_update_data st now fetch_ref fetch_prices).1.1 =
      (RefCoordinator._async_update_data st now fetch_ref
        fetch_prices).2.1.reference_data := by
  have hdays : RefCoordinator.timedelta_days (now - st.last_ref_update) =
      (now - st.last_ref_update) / RefCoordinator.SECONDS_PER_DAY := by
    unfold RefCoordinator.timedelta_days
    exact Int.fdiv_eq_ediv _ (by unfold RefCoordinator.SECONDS_PER_DAY; omega)
  refine ⟨?_, ?_, ?_, ?_, ?_, ?_⟩
  · unfold RefCoordinator._needs_ref_update
    rw [hdays]
    rw [Bool.or_eq_true, decide_eq_true_eq, Option.isNone_iff_eq_none]
    rw [Int.le_ediv_iff_mul_le
      (by unfold RefCoordinator.SECONDS_PER_DAY; omega)]
    exact or_comm
  · unfold RefCoordinator._async_update_data
    by_cases h : RefCoordinator._needs_ref_update st now = true
    · rw [if_pos h, h]
    · rw [Bool.not_eq_true] at h
      rw [if_neg (by rw [h]; exact Bool.false_ne_true), h]
  · intro h
    unfold RefCoordinator._async_update_data
    rw [if_pos h]
  · intro h
    unfold RefCoordinator._async_update_data
    rw [if_neg (by rw [h]; exact Bool.false_ne_true)]
  · unfold RefCoordinator._async_update_data
    by_cases h : RefCoordinator._needs_ref_update st now = true
    · rw [if_pos h]
    · rw [Bool.not_eq_true] at h
      rw [if_neg (by rw [h]; exact Bool.false_ne_true)]
  · unfold RefCoordinator._async_update_data
    by_cases h : RefCoordinator._needs_ref_update st now = true
    · rw [if_pos h]
    · rw [Bool.not_eq_true] at h
      rw [if_neg (by rw [h]; exact Bool.false_ne_true)]

/-- Witness for C2 at concrete states: a populated cache 31 days old needs a
refresh and one 29 days old does not. -/
theorem c2_witness :
    (RefCoordinator._needs_ref_update
      (⟨0, some 5⟩ : RefCoordinator.RefState ℤ) (31 * 86400) = true →
      (RefCoordinator._async_update_data
        (⟨0, some 5⟩ : RefCoordinator.RefState ℤ) (31 * 86400) 9 7).2.1 =
        ⟨31 * 86400, some 9⟩) ∧
    (RefCoordinator._needs_ref_update
      (⟨0, some 5⟩ : RefCoordinator.RefState ℤ) (31 * 86400) = true) ∧
    (RefCoordinator._needs_ref_update
      (⟨0, some 5⟩ : RefCoordinator.RefState ℤ) (29 * 86400) = false) := by
  refine ⟨(c2_ref_refresh ⟨0, some 5⟩ (31 * 86400) 9 (7 : ℤ)).2.2.1, ?_, ?_⟩
  · exact (c2_ref_refresh ⟨0, some 5⟩ (31 * 86400) (9 : ℤ) (7 : ℤ)).1.mpr
      (Or.inr (by show (30 * 86400 : ℤ) ≤ 31 * 86400 - 0
                  omega))
  · have h := (c2_ref_refresh ⟨0, some 5⟩ (29 * 86400) (9 : ℤ) (7 : ℤ)).1
    rw [Bool.eq_false_iff]
    intro hc
    rcases h.mp hc with h1 | h1
    · exact Option.noConfusion h1
    · have h2 : (30 * 86400 : ℤ) ≤ 29 * 86400 - 0 := h1
      omega

/-- C5: with a truthy cached token and now at or before sixty seconds ahead
of its expiry, _async_get_token returns the cached token without a network
request and leaves the client state unchanged; otherwise it performs the
request, and a 401 answer raises NSWFuelApiClientAuthError, any other HTTP
status error or a network error raises NSWFuelApiClientError, and a parsed
answer caches the token with expiry now + expires_in. -/
theorem c5_token_cache (st : Api.ApiState) (now : ℚ) (resp : Api.TokenResponse) :
    (∀ t, st.token = some t → t ≠ "" → now ≤ st.token_expiry - 60 →
      Api._async_get_token st now resp = .ok (t, st, false)) ∧
    (Api.token_truthy st.token = false ∨ st.token_expiry - 60 < now →
      (resp = .httpError 401 →
        Api._async_get_token st now resp = .error .authError) ∧
      (∀ s, s ≠ 401 → resp = .httpError s →
        Api._async_get_token st now resp = .error .clientError) ∧
      (resp = .networkError →
        Api._async_get_token st now resp = .error .clientError) ∧
      (∀ tok exp, resp = .success tok exp →
        Api._async_get_token st now resp =
          .ok (tok, ⟨some tok, now + exp⟩, true))) := by
  constructor
  · intro t ht htne hnow
    unfold Api._async_get_token
    have htruthy : Api.token_truthy st.token = true := by
      rw [ht]
      unfold Api.token_truthy
      exact decide_eq_true htne
    rw [if_neg]
    · rw [ht]
      rfl
    · rw [htruthy]
      simp only [Bool.not_true, Bool.false_or, decide_eq_true_eq]
      exact not_lt.mpr hnow
  · intro hcond
    have hif : (!Api.token_truthy st.token ||
        decide (now > st.token_expiry - 60)) = true := by
      rcases hcond with h | h
      · rw [h]
        rfl
      · rw [Bool.or_eq_true]
        exact Or.inr (decide_eq_true h)
    refine ⟨?_, ?_, ?_, ?_⟩
    · intro h
      subst h
      unfold Api._async_get_token
      rw [if_pos hif]
      rfl
    · intro s hs h
      subst h
      unfold Api._async_get_token
      rw [if_pos hif]
      exact if_neg hs
    · intro h
      subst h
      unfold Api._async_get_token
      rw [if_pos hif]
    · intro tok exp h
      subst h
      unfold Api._async_get_token
      rw [if_pos hif]

/-- Witness for C5: a fresh cached token is returned without a request, and
an expired cache turns a 401 answer into an auth error, a 500 answer and a
network failure into client errors, and a parsed answer into a new cache. -/
theorem c5_witness :
    ((⟨some "tok", 1000⟩ : Api.ApiState).token = some "tok" ∧
      "tok" ≠ "" ∧ (900 : ℚ) ≤ 1000 - 60 ∧
      Api._async_get_token ⟨some "tok", 1000⟩ 900 .networkError =
        .ok ("tok", ⟨some "tok", 1000⟩, false)) ∧
    (Api._async_get_token ⟨none, 0⟩ 900 (.httpError 401) =
      .error .authError) ∧
    (Api._async_get_token ⟨none, 0⟩ 900 (.httpError 500) =
      .error .clientError) ∧
    (Api._async_get_token ⟨none, 0⟩ 900 .networkError =
      .error .clientError) ∧
    (Api._async_get_token ⟨none, 0⟩ 900 (.success "t2" 3600) =
      .ok ("t2", ⟨some "t2", 900 + 3600⟩, true)) := by
  have hstale : Api.token_truthy (⟨none, 0⟩ : Api.ApiState).token = false ∨
      (⟨none, 0⟩ : Api.ApiState).token_expiry - 60 < (900 : ℚ) :=
    Or.inl rfl
  refine ⟨⟨rfl, by decide, by norm_num, ?_⟩, ?_, ?_, ?_, ?_⟩
  · exact (c5_token_cache ⟨some "tok", 1000⟩ 900 .networkError).1 "tok" rfl
      (by decide) (by norm_num)
  · exact ((c5_token_cache ⟨none, 0⟩ 900 (.httpError 401)).2 hstale).1 rfl
  · exact ((c5_token_cache ⟨none, 0⟩ 900 (.httpError 500)).2 hstale).2.1 500
      (by omega) rfl
  · exact ((c5_token_cache ⟨none, 0⟩ 900 .networkError).2 hstale).2.2.1 rfl
  · exact ((c5_token_cache ⟨none, 0⟩ 900 (.success "t2" 3600)).2
      hstale).2.2.2 "t2" 3600 rfl

/-- C6: any submitted user step input whose latitude or longitude fails
validation, or whose coordinates fall outside the accepted bounding box,
makes async_step_user redisplay the user form with the invalid_coordinates
error, and the flow neither reaches the fuel price API call nor the station
selection step. -/
theorem c6_invalid_coordinates (lat0 lon0 : Option ℚ) :
    (lat0 = none ∨ lon0 = none ∨
      (∃ lat lon, lat0 = some lat ∧ lon0 = some lon ∧
        (¬(LAT_SE_BOUND ≤ lat ∧ lat ≤ LAT_CAMERON_CORNER_BOUND) ∨
          ¬(LON_CAMERON_CORNER_BOUND ≤ lon ∧ lon ≤ LON_SE_BOUND)))) →
    ConfigFlow.async_step_user (some (lat0, lon0)) =
      .show_form "user" (some "invalid_coordinates") ∧
    ∀ la lo, ConfigFlow.async_step_user (some (lat0, lon0)) ≠
      .proceed_to_api la lo := by
  intro h
  have hform : ConfigFlow.async_step_user (some (lat0, lon0)) =
      .show_form "user" (some "invalid_coordinates") := by
    rcases h with h | h | ⟨lat, lon, hlat, hlon, hbox⟩
    · subst h
      cases lon0 with
      | none => rfl
      | some lon => rfl
    · subst h
      cases lat0 with
      | none => rfl
      | some lat => rfl
    · subst hlat
      subst hlon
      exact if_pos hbox
  refine ⟨hform, ?_⟩
  intro la lo hc
  rw [hform] at hc
  exact ConfigFlow.UserStepResult.noConfusion hc

/-- Witness for C6 at a concrete out of range input: latitude 0 is north of
the accepted box. -/
theorem c6_witness :
    ((some (0 : ℚ) = some 0 ∧ some (150 : ℚ) = some 150 ∧
      (¬(LAT_SE_BOUND ≤ (0 : ℚ) ∧ (0 : ℚ) ≤ LAT_CAMERON_CORNER_BOUND) ∨
        ¬(LON_CAMERON_CORNER_BOUND ≤ (150 : ℚ) ∧ (150 : ℚ) ≤ LON_SE_BOUND))) ∧
      ConfigFlow.async_step_user (some (some 0, some 150)) =
        .show_form "user" (some "invalid_coordinates")) ∧
    ConfigFlow.async_step_user (some (none, some 150)) =
      .show_form "user" (some "invalid_coordinates") := by
  have hbox : ¬(LAT_SE_BOUND ≤ (0 : ℚ) ∧ (0 : ℚ) ≤ LAT_CAMERON_CORNER_BOUND) ∨
      ¬(LON_CAMERON_CORNER_BOUND ≤ (150 : ℚ) ∧ (150 : ℚ) ≤ LON_SE_BOUND) := by
    left
    intro hc
    have h2 := hc.2
    unfold NSWFuel.LAT_CAMERON_CORNER_BOUND at h2
    norm_num at h2
  constructor
  · exact ⟨⟨rfl, rfl, hbox⟩,
      (c6_invalid_coordinates (some 0) (some 150)
        (Or.inr (Or.inr ⟨0, 150, rfl, rfl, hbox⟩))).1⟩
  · exact (c6_invalid_coordinates none (some 150) (Or.inl rfl)).1

/-- Membership in the inner station key fold: the accumulator plus one key
per station of the list. -/
theorem mem_station_fold (sts : List Cheapest.StationEntry)
    (acc : Finset (ℤ × String)) (k : ℤ × String) :
    (k ∈ sts.foldl
        (fun acc2 st => insert (st.station_code, st.au_state) acc2) acc) ↔
      (k ∈ acc ∨ ∃ st ∈ sts, k = (st.station_code, st.au_state)) := by
  induction sts generalizing acc with
  | nil => simp
  | cons st sts ih =>
      rw [List.foldl_cons, ih]
      rw [Finset.mem_insert]
      constructor
      · rintro ((h | h) | ⟨st2, hst2, h⟩)
        · exact Or.inr ⟨st, List.mem_cons_self st sts, h⟩
        · exact Or.inl h
        · exact Or.inr ⟨st2, List.mem_cons_of_mem st hst2, h⟩
      · rintro (h | ⟨st2, hst2, h⟩)
        · exact Or.inl (Or.inr h)
        · rcases List.mem_cons.mp hst2 with h2 | h2
          · subst h2
            exact Or.inl (Or.inl h)
          · exact Or.inr ⟨st2, h2, h⟩

/-- Membership in the outer nickname fold of build_station_keys. -/
theorem mem_nickname_fold (ns : List (String × Cheapest.NicknameData))
    (acc : Finset (ℤ × String)) (k : ℤ × String) :
    (k ∈ ns.foldl
        (fun acc2 nd =>
          nd.2.stations.foldl
            (fun acc3 st => insert (st.station_code, st.au_state) acc3) acc2)
        acc) ↔
      (k ∈ acc ∨ ∃ nd ∈ ns, ∃ st ∈ nd.2.stations,
        k = (st.station_code, st.au_state)) := by
  induction ns generalizing acc with
  | nil => simp
  | cons nd ns ih =>
      rw [List.foldl_cons, ih, mem_station_fold]
      constructor
      · rintro ((h | ⟨st, hst, h⟩) | ⟨nd2, hnd2, st, hst, h⟩)
        · exact Or.inl h
        · exact Or.inr ⟨nd, List.mem_cons_self nd ns, st, hst, h⟩
        · exact Or.inr ⟨nd2, List.mem_cons_of_mem nd hnd2, st, hst, h⟩
      · rintro (h | ⟨nd2, hnd2, st, hst, h⟩)
        · exact Or.inl (Or.inl h)
        · rcases List.mem_cons.mp hnd2 with h2 | h2
          · subst h2
            exact Or.inl (Or.inr ⟨st, hst, h⟩)
          · exact Or.inr ⟨nd2, h2, st, hst, h⟩

/-- C3: the coordinator constructor builds the station key set as exactly
the (station_code, au_state) pairs occurring under some nickname, each
present at most once however many nicknames list the station, and the
favorite price fetch is defined exactly on that deduplicated set. -/
theorem c3_station_keys_dedup (ns : List (String × Cheapest.NicknameData))
    (k : ℤ × String) :
    (k ∈ Cheapest.build_station_keys ns ↔
      ∃ nd ∈ ns, ∃ st ∈ nd.2.stations, k = (st.station_code, st.au_state)) ∧
    (Cheapest.build_station_keys ns).val.count k ≤ 1 ∧
    (∀ fetch,
      (Cheapest.update_favorite_stations
        (Cheapest.build_station_keys ns) fetch k).isSome ↔
      k ∈ Cheapest.build_station_keys ns) := by
  refine ⟨?_, ?_, ?_⟩
  · unfold Cheapest.build_station_keys
    rw [mem_nickname_fold]
    simp
  · exact Multiset.nodup_iff_count_le_one.mp
      (Cheapest.build_station_keys ns).nodup k
  · intro fetch
    unfold Cheapest.update_favorite_stations
    by_cases h : k ∈ Cheapest.build_station_keys ns
    · rw [if_pos h]
      simp [h]
    · rw [if_neg h]
      simp [h]

/-- Witness for C3: two nicknames listing the same TAS station produce a key
set containing that single key once. -/
theorem c3_witness :
    ((1, "TAS") ∈ Cheapest.build_station_keys c3_nicknames) ∧
    (Cheapest.build_station_keys c3_nicknames).val.count (1, "TAS") ≤ 1 := by
  have h := c3_station_keys_dedup c3_nicknames (1, "TAS")
  refine ⟨?_, h.2.1⟩
  refine h.1.mpr ?_
  refine ⟨c3_nicknames.head (by simp [c3_nicknames]), ?_, ?_⟩
  · simp [c3_nicknames]
  · refine ⟨{ station_code := 1, au_state := "TAS",
              station_name := "A", fuel_types := ["U91"] }, ?_, rfl⟩
    simp [c3_nicknames]

/-- Lookup after the favorite price dict fold: the last record of the list
passing the filter with the looked up fuel type, falling back to the
accumulator. -/
theorem dict_fold_lookup (l : List NSWFuel.Price)
    (d : String → Option NSWFuel.Price) (ft : String) :
    (l.foldl
        (fun d2 p =>
          if Cheapest.price_ok p then Cheapest.dict_insert d2 p.fuel_type p
          else d2) d) ft =
      ((l.filter Cheapest.price_ok).reverse.find?
        (fun p => p.fuel_type == ft)).or (d ft) := by
  induction l generalizing d with
  | nil => simp
  | cons p l ih =>
      rw [List.foldl_cons]
      rw [ih]
      by_cases hp : Cheapest.price_ok p = true
      · rw [if_pos hp, List.filter_cons_of_pos hp]
        rw [List.reverse_cons, List.find?_append]
        by_cases hft : p.fuel_type = ft
        · have hfind : List.find? (fun p2 => p2.fuel_type == ft) [p] = some p := by
            simp [List.find?_cons, hft]
          rw [hfind]
          have hins : Cheapest.dict_insert d p.fuel_type p ft = some p := by
            unfold Cheapest.dict_insert
            rw [if_pos hft.symm]
          rw [hins]
          cases (l.filter Cheapest.price_ok).reverse.find?
              (fun p2 => p2.fuel_type == ft) with
          | none => rfl
          | some q => rfl
        · have hfind : List.find? (fun p2 => p2.fuel_type == ft) [p] = none := by
            simp [List.find?_cons, hft]
          rw [hfind, Option.or_none]
          have hins : Cheapest.dict_insert d p.fuel_type p ft = d ft := by
            unfold Cheapest.dict_insert
            rw [if_neg (fun h => hft h.symm)]
          rw [hins]
      · rw [if_neg hp, List.filter_cons_of_neg hp]

/-- Lookup in the dict built by _update_favorite_stations for one station:
exactly the last fetched record with the looked up fuel type among those
passing the filter. -/
theorem build_price_dict_lookup (prices : List NSWFuel.Price) (ft : String) :
    Cheapest.build_price_dict prices ft =
      (prices.filter Cheapest.price_ok).reverse.find?
        (fun p => p.fuel_type == ft) := by
  unfold Cheapest.build_price_dict
  rw [dict_fold_lookup, Option.or_none]

/-- Counterexample to C4 as stated: with two fetched records sharing fuel
type U91 and both passing the filter, the first record is not contained in
the resulting dictionary (the second overwrites it under their shared key),
so the dictionary does not contain exactly the filtered records. -/
theorem c4_counterexample :
    c4_p1 ∈ [c4_p1, c4_p2] ∧ c4_p1.fuel_type = "U91" ∧
    c4_p1.fuel_type ≠ "" ∧ c4_p1.price ≠ none ∧
    Cheapest.build_price_dict [c4_p1, c4_p2] "U91" = some c4_p2 ∧
    ¬ Cheapest.build_price_dict [c4_p1, c4_p2] "U91" = some c4_p1 := by
  have hval : Cheapest.build_price_dict [c4_p1, c4_p2] "U91" = some c4_p2 := by
    rfl
  refine ⟨List.mem_cons_self _ _, rfl, by decide, by decide, hval, ?_⟩
  rw [hval]
  intro h
  have h2 : c4_p2 = c4_p1 := Option.some.inj h
  exact absurd h2 (by decide)

/-- C4 (amended): each configured station key maps to a dictionary keyed by
fuel type, where every stored record is a fetched record passing the filter
(non empty fuel type, price present) stored under its own fuel type, each
fuel type holds the last such fetched record with that type (later records
overwrite earlier ones sharing a fuel type), keys with no passing records
map to the empty dictionary, and no station key outside the configured set
appears. -/
theorem c4_favorites_amended (keys : Finset (ℤ × String))
    (fetch : ℤ × String → List NSWFuel.Price) (k : ℤ × String) :
    (Cheapest.update_favorite_stations keys fetch k = none ↔ k ∉ keys) ∧
    (k ∈ keys →
      Cheapest.update_favorite_stations keys fetch k =
        some (Cheapest.build_price_dict (fetch k))) ∧
    (∀ ft, Cheapest.build_price_dict (fetch k) ft =
      ((fetch k).filter Cheapest.price_ok).reverse.find?
        (fun p => p.fuel_type == ft)) ∧
    (∀ ft p, Cheapest.build_price_dict (fetch k) ft = some p →
      p.fuel_type = ft ∧ p ∈ fetch k ∧ Cheapest.price_ok p = true) ∧
    ((fetch k).filter Cheapest.price_ok = [] →
      ∀ ft, Cheapest.build_price_dict (fetch k) ft = none) := by
  refine ⟨?_, ?_, ?_, ?_, ?_⟩
  · unfold Cheapest.update_favorite_stations
    by_cases h : k ∈ keys
    · rw [if_pos h]
      simp [h]
    · rw [if_neg h]
      simp [h]
  · intro h
    unfold Cheapest.update_favorite_stations
    rw [if_pos h]
  · intro ft
    exact build_price_dict_lookup (fetch k) ft
  · intro ft p h
    rw [build_price_dict_lookup] at h
    have hft : (p.fuel_type == ft) = true :=
      @List.find?_some NSWFuel.Price (fun p2 => p2.fuel_type == ft) p
        (((fetch k).filter Cheapest.price_ok).reverse) h
    have hmem : p ∈ ((fetch k).filter Cheapest.price_ok).reverse :=
      List.mem_of_find?_eq_some h
    rw [List.mem_reverse, List.mem_filter] at hmem
    exact ⟨by simpa using hft, hmem.1, hmem.2⟩
  · intro hnil ft
    rw [build_price_dict_lookup, hnil]
    rfl

/-- Witness for C4 (amended) at a concrete configuration: the configured key
holds the overwritten dictionary, an unconfigured key is absent, and a key
whose fetch yields nothing passing the filter holds the empty dictionary. -/
theorem c4_witness :
    ((1, "TAS") ∈ ({(1, "TAS"), (2, "TAS")} : Finset (ℤ × String)) ∧
      Cheapest.update_favorite_stations {(1, "TAS"), (2, "TAS")}
        (fun k => if k = (1, "TAS") then [c4_p1, c4_p2] else []) (1, "TAS") =
        some (Cheapest.build_price_dict [c4_p1, c4_p2])) ∧
    Cheapest.update_favorite_stations {(1, "TAS"), (2, "TAS")}
      (fun k => if k = (1, "TAS") then [c4_p1, c4_p2] else []) (3, "TAS") =
      none ∧
    Cheapest.build_price_dict
      ((fun k : ℤ × String => if k = (1, "TAS") then [c4_p1, c4_p2] else [])
        (2, "TAS")) "U91" = none := by
  have h1 := c4_favorites_amended {(1, "TAS"), (2, "TAS")}
    (fun k => if k = (1, "TAS") then [c4_p1, c4_p2] else []) (1, "TAS")
  have h3 := c4_favorites_amended {(1, "TAS"), (2, "TAS")}
    (fun k => if k = (1, "TAS") then [c4_p1, c4_p2] else []) (3, "TAS")
  have h2 := c4_favorites_amended {(1, "TAS"), (2, "TAS")}
    (fun k => if k = (1, "TAS") then [c4_p1, c4_p2] else []) (2, "TAS")
  refine ⟨⟨by decide, ?_⟩, ?_, ?_⟩
  · have hm : ((1 : ℤ), "TAS") ∈ ({(1, "TAS"), (2, "TAS")} : Finset (ℤ × String)) := by
      decide
    have := h1.2.1 hm
    simpa using this
  · refine h3.1.mpr ?_
    decide
  · refine h2.2.2.2.2 ?_ "U91"
    rfl

/-- Transitivity of the price comparison used by the cheapest sort. -/
theorem le_price_trans (a b c : Cheapest.CheapRecord)
    (hab : Cheapest.le_price a b = true) (hbc : Cheapest.le_price b c = true) :
    Cheapest.le_price a c = true := by
  unfold Cheapest.le_price at hab hbc ⊢
  rw [decide_eq_true_eq] at hab hbc ⊢
  exact le_trans hab hbc

/-- Totality of the price comparison used by the cheapest sort. -/
theorem le_price_total (a b : Cheapest.CheapRecord) :
    (Cheapest.le_price a b || Cheapest.le_price b a) = true := by
  unfold Cheapest.le_price
  rw [Bool.or_eq_true, decide_eq_true_eq, decide_eq_true_eq]
  exact le_total a.price b.price

/-- The sorted candidate list is pairwise non decreasing in price. -/
theorem sorted_combined_pairwise (d e : List NSWFuel.StationPrice) :
    (Cheapest.sorted_combined d e).Pairwise
      (fun a b => a.price ≤ b.price) := by
  unfold Cheapest.sorted_combined
  have h := @List.sorted_mergeSort Cheapest.CheapRecord Cheapest.le_price
    le_price_trans le_price_total (Cheapest.combined_candidates d e)
  exact h.imp (fun hab => by
    unfold Cheapest.le_price at hab
    exact decide_eq_true_eq.mp hab)

/-- Per nickname sort and truncate properties of the stored cheapest list:
it is the price sorted candidate list truncated to two records, has at most
two entries, is non decreasing in price, the sorted list is a permutation of
the combined candidates, and every stored price is at most the price of
every candidate dropped by the truncation. -/
theorem cheapest_one_spec (d e : List NSWFuel.StationPrice)
    (l : List Cheapest.CheapRecord)
    (h : Cheapest.update_cheapest_one d e = some l) :
    l = (Cheapest.sorted_combined d e).take 2 ∧
      l.length ≤ 2 ∧
      l.Pairwise (fun a b => a.price ≤ b.price) ∧
      (Cheapest.sorted_combined d e).Perm (Cheapest.combined_candidates d e) ∧
      (∀ a ∈ l, ∀ b ∈ (Cheapest.sorted_combined d e).drop 2,
        a.price ≤ b.price) := by
  cases d with
  | nil => exact Option.noConfusion h
  | cons x xs =>
      have hl : l = (Cheapest.sorted_combined (x :: xs) e).take 2 :=
        (Option.some.inj h).symm
      subst hl
      refine ⟨rfl, List.length_take_le 2 _, ?_, List.mergeSort_perm _ _, ?_⟩
      · exact List.Pairwise.sublist (List.take_sublist 2 _)
          (sorted_combined_pairwise (x :: xs) e)
      · have hsorted := sorted_combined_pairwise (x :: xs) e
        rw [← List.take_append_drop 2 (Cheapest.sorted_combined (x :: xs) e)]
          at hsorted
        exact (List.pairwise_append.mp hsorted).2.2

/-- C1: every list stored by _update_cheapest_stations for a nickname
(which happens exactly when the U91 nearby query answer for it is non
empty) is the price sorted combined U91 and E10 candidate list truncated to
its first two records, hence has at most two entries, is non decreasing in
price, and every stored price is at most the price of every combined
candidate dropped by the truncation. -/
theorem c1_cheapest_sort_truncate (locations : List (String × ℚ × ℚ))
    (fetch : ℚ → ℚ → String → List NSWFuel.StationPrice) (n : String)
    (l : List Cheapest.CheapRecord)
    (h : (n, l) ∈ Cheapest.update_cheapest_stations locations fetch) :
    ∃ lat lon, (n, lat, lon) ∈ locations ∧
      fetch lat lon DEFAULT_FUEL_TYPE ≠ [] ∧
      Cheapest.update_cheapest_one (fetch lat lon DEFAULT_FUEL_TYPE)
        (fetch lat lon E10_CODE) = some l ∧
      l = (Cheapest.sorted_combined (fetch lat lon DEFAULT_FUEL_TYPE)
        (fetch lat lon E10_CODE)).take 2 ∧
      l.length ≤ 2 ∧
      l.Pairwise (fun a b => a.price ≤ b.price) ∧
      (Cheapest.sorted_combined (fetch lat lon DEFAULT_FUEL_TYPE)
          (fetch lat lon E10_CODE)).Perm
        (Cheapest.combined_candidates (fetch lat lon DEFAULT_FUEL_TYPE)
          (fetch lat lon E10_CODE)) ∧
      (∀ a ∈ l,
        ∀ b ∈ (Cheapest.sorted_combined (fetch lat lon DEFAULT_FUEL_TYPE)
          (fetch lat lon E10_CODE)).drop 2,
        a.price ≤ b.price) := by
  unfold Cheapest.update_cheapest_stations at h
  rw [List.mem_filterMap] at h
  rcases h with ⟨nl, hnl, hmap⟩
  rw [Option.map_eq_some'] at hmap
  rcases hmap with ⟨l2, hl2, hpair⟩
  have hn : nl.1 = n := congrArg Prod.fst hpair
  have hl : l2 = l := congrArg Prod.snd hpair
  subst hl
  refine ⟨nl.2.1, nl.2.2, ?_, ?_, hl2, cheapest_one_spec _ _ l2 hl2⟩
  · rw [← hn]
    simpa using hnl
  · intro hc
    rw [hc] at hl2
    exact Option.noConfusion hl2

unseal List.merge List.mergeSort in
/-- Witness for C1 at one nickname whose U91 answer has one station. -/
theorem c1_witness :
    (("Home", [Cheapest._convert w_sp DEFAULT_FUEL_TYPE]) ∈
      Cheapest.update_cheapest_stations [("Home", -42, 147)] c1_fetch) ∧
    (∃ lat lon, (("Home" : String), lat, lon) ∈
        ([(("Home" : String), (-42 : ℚ), (147 : ℚ))]) ∧
      c1_fetch lat lon DEFAULT_FUEL_TYPE ≠ [] ∧
      Cheapest.update_cheapest_one (c1_fetch lat lon DEFAULT_FUEL_TYPE)
        (c1_fetch lat lon E10_CODE) =
        some [Cheapest._convert w_sp DEFAULT_FUEL_TYPE] ∧
      [Cheapest._convert w_sp DEFAULT_FUEL_TYPE] =
        (Cheapest.sorted_combined (c1_fetch lat lon DEFAULT_FUEL_TYPE)
          (c1_fetch lat lon E10_CODE)).take 2 ∧
      ([Cheapest._convert w_sp DEFAULT_FUEL_TYPE]).length ≤ 2 ∧
      ([Cheapest._convert w_sp DEFAULT_FUEL_TYPE]).Pairwise
        (fun a b => a.price ≤ b.price) ∧
      (Cheapest.sorted_combined (c1_fetch lat lon DEFAULT_FUEL_TYPE)
          (c1_fetch lat lon E10_CODE)).Perm
        (Cheapest.combined_candidates (c1_fetch lat lon DEFAULT_FUEL_TYPE)
          (c1_fetch lat lon E10_CODE)) ∧
      (∀ a ∈ [Cheapest._convert w_sp DEFAULT_FUEL_TYPE],
        ∀ b ∈ (Cheapest.sorted_combined (c1_fetch lat lon DEFAULT_FUEL_TYPE)
          (c1_fetch lat lon E10_CODE)).drop 2,
        a.price ≤ b.price)) := by
  have hmem : (("Home", [Cheapest._convert w_sp DEFAULT_FUEL_TYPE]) ∈
      Cheapest.update_cheapest_stations [("Home", -42, 147)] c1_fetch) := by
    refine List.mem_singleton.mpr ?_
    rfl
  exact ⟨hmem,
    c1_cheapest_sort_truncate [("Home", -42, 147)] c1_fetch "Home"
      [Cheapest._convert w_sp DEFAULT_FUEL_TYPE] hmem⟩

/-- C8: the E10 answer is merged only when the first nearby U91 station is
in an E10 available state (exactly the state NSW): otherwise the candidate
list is the U91 records alone, every candidate carries fuel type U91, and
the stored result does not depend on the E10 answer at all; in every case at
most E10_TRUNCATE_LIST candidates carry fuel type E10. -/
theorem c8_e10_merge_guard (sp0 : NSWFuel.StationPrice)
    (rest e : List NSWFuel.StationPrice) :
    (sp0.station.au_state ∉ E10_AVAILABLE_STATES →
      Cheapest.combined_candidates (sp0 :: rest) e =
        (sp0 :: rest).map (fun sp => Cheapest._convert sp DEFAULT_FUEL_TYPE) ∧
      (∀ r ∈ Cheapest.combined_candidates (sp0 :: rest) e,
        r.fuel_type = DEFAULT_FUEL_TYPE) ∧
      Cheapest.update_cheapest_one (sp0 :: rest) e =
        Cheapest.update_cheapest_one (sp0 :: rest) []) ∧
    (sp0.station.au_state ∈ E10_AVAILABLE_STATES ↔
      sp0.station.au_state = "NSW") ∧
    ((Cheapest.combined_candidates (sp0 :: rest) e).filter
        (fun r => decide (r.fuel_type = E10_CODE))).length ≤
      E10_TRUNCATE_LIST := by
  have hred : Cheapest.combined_candidates (sp0 :: rest) e =
      (sp0 :: rest).map (fun sp => Cheapest._convert sp DEFAULT_FUEL_TYPE) ++
        (if sp0.station.au_state ∈ E10_AVAILABLE_STATES then
          (e.take E10_TRUNCATE_LIST).map
            (fun sp => Cheapest._convert sp E10_CODE)
        else []) := rfl
  have hu91_filter :
      ((sp0 :: rest).map
          (fun sp => Cheapest._convert sp DEFAULT_FUEL_TYPE)).filter
        (fun r => decide (r.fuel_type = E10_CODE)) = [] := by
    rw [List.filter_eq_nil_iff]
    intro r hr
    rw [List.mem_map] at hr
    rcases hr with ⟨sp, _, hsp⟩
    subst hsp
    show ¬ (decide ((DEFAULT_FUEL_TYPE : String) = E10_CODE) = true)
    decide
  have hrhs : Cheapest.combined_candidates (sp0 :: rest) [] =
      (sp0 :: rest).map (fun sp => Cheapest._convert sp DEFAULT_FUEL_TYPE) := by
    show (sp0 :: rest).map (fun sp => Cheapest._convert sp DEFAULT_FUEL_TYPE) ++
        (if sp0.station.au_state ∈ E10_AVAILABLE_STATES then
          (([] : List NSWFuel.StationPrice).take E10_TRUNCATE_LIST).map
            (fun sp => Cheapest._convert sp E10_CODE)
        else []) = _
    by_cases hc : sp0.station.au_state ∈ E10_AVAILABLE_STATES
    · rw [if_pos hc]
      simp
    · rw [if_neg hc]
      simp
  refine ⟨?_, ?_, ?_⟩
  · intro h
    have hnil : Cheapest.combined_candidates (sp0 :: rest) e =
        (sp0 :: rest).map (fun sp => Cheapest._convert sp DEFAULT_FUEL_TYPE) := by
      rw [hred, if_neg h, List.append_nil]
    refine ⟨hnil, ?_, ?_⟩
    · intro r hr
      rw [hnil, List.mem_map] at hr
      rcases hr with ⟨sp, _, hsp⟩
      subst hsp
      rfl
    · have hce : Cheapest.combined_candidates (sp0 :: rest) e =
          Cheapest.combined_candidates (sp0 :: rest) [] := by
        rw [hnil, hrhs]
      show some ((Cheapest.sorted_combined (sp0 :: rest) e).take 2) =
        some ((Cheapest.sorted_combined (sp0 :: rest) []).take 2)
      unfold Cheapest.sorted_combined
      rw [hce]
  · show sp0.station.au_state ∈ (["NSW"] : List String) ↔
      sp0.station.au_state = "NSW"
    exact List.mem_singleton
  · rw [hred, List.filter_append, hu91_filter, List.nil_append]
    by_cases hc : sp0.station.au_state ∈ E10_AVAILABLE_STATES
    · rw [if_pos hc]
      refine le_trans (List.length_filter_le _ _) ?_
      rw [List.length_map]
      exact List.length_take_le _ _
    · rw [if_neg hc]
      show (0 : ℕ) ≤ E10_TRUNCATE_LIST
      exact Nat.zero_le _

/-- Witness for C8 at a TAS first station: the candidate list is the U91
records alone, the E10 answer does not influence the stored result, TAS is
not an E10 available state, and the E10 filter bound holds. -/
theorem c8_witness :
    (w_sp.station.au_state ∉ E10_AVAILABLE_STATES ∧
      Cheapest.combined_candidates [w_sp] [w_sp] =
        [w_sp].map (fun sp => Cheapest._convert sp DEFAULT_FUEL_TYPE) ∧
      Cheapest.update_cheapest_one [w_sp] [w_sp] =
        Cheapest.update_cheapest_one [w_sp] []) ∧
    ((Cheapest.combined_candidates [w_sp] [w_sp]).filter
        (fun r => decide (r.fuel_type = E10_CODE))).length ≤
      E10_TRUNCATE_LIST := by
  have hmem : w_sp.station.au_state ∉ E10_AVAILABLE_STATES := by
    decide
  have h := c8_e10_merge_guard w_sp [] [w_sp]
  have h1 := h.1 hmem
  exact ⟨⟨hmem, h1.1, h1.2.2⟩, h.2.2⟩

end Theorems
